import Mathlib

/-!  Verification of the Auto-Analyst backend's agent orchestration core.

Each definition below is a shallow embedding of the Python function of the
same (or closely similar) name from `src/agents/agents.py` or `app.py` of the
repository.  External effects (the language-model calls, the SQL store, the
retrievers) are passed in as explicit parameters or oracle functions;
everything else follows the source line by line. -/

namespace AutoAnalyst

/-! ## Python string primitives

The plan parser in `execute_plan` works on raw strings with `str.strip()`,
`str.lower()`, `str.replace(pat, "")`, `str.split("->")` and the `in`
substring test.  We model each of these on `List Char` / `String`. -/

/-- Model of Python `str.strip()`: drop leading and trailing whitespace. -/
def pyStrip (s : String) : String :=
  ⟨(s.toList.dropWhile Char.isWhitespace).rdropWhile Char.isWhitespace⟩

/-- Model of Python `str.lower()`. -/
def pyLower (s : String) : String :=
  ⟨s.toList.map Char.toLower⟩

/-- Model of Python `s.split("->")`: split on each non-overlapping
occurrence of the two-character separator `->`, keeping empty pieces. -/
def splitArrow : List Char → List (List Char)
  | '-' :: '>' :: rest => [] :: splitArrow rest
  | c :: rest =>
    match splitArrow rest with
    | [] => [[c]]
    | h :: t => (c :: h) :: t
  | [] => [[]]

/-- Whether `pat` is an initial segment of `l`. -/
def startsWithL : List Char → List Char → Bool
  | [], _ => true
  | _ :: _, [] => false
  | p :: ps, c :: cs => p == c && startsWithL ps cs

/-- Model of the Python substring test `pat in s`. -/
def containsSubL (pat l : List Char) : Bool :=
  l.tails.any fun t => startsWithL pat t

/-- Model of Python `s.replace("plan:", "")`: remove every non-overlapping
occurrence of `plan:`, scanning left to right. -/
def removePlanColon : List Char → List Char
  | 'p' :: 'l' :: 'a' :: 'n' :: ':' :: rest => removePlanColon rest
  | c :: rest => c :: removePlanColon rest
  | [] => []

/-- Model of Python `s.replace("**Conclusion**", "")`: remove every
non-overlapping occurrence of `**Conclusion**`, scanning left to right. -/
def removeConclusionMarks : List Char → List Char
  | '*' :: '*' :: 'C' :: 'o' :: 'n' :: 'c' :: 'l' :: 'u' :: 's' :: 'i' :: 'o'
      :: 'n' :: '*' :: '*' :: rest => removeConclusionMarks rest
  | c :: rest => c :: removeConclusionMarks rest
  | [] => []

/-- Model of Python `len(s.split())`: the number of maximal runs of
non-whitespace characters. -/
def wordCountAux : Bool → List Char → Nat
  | _, [] => 0
  | inWord, c :: rest =>
    if c.isWhitespace then wordCountAux false rest
    else (if inWord then 0 else 1) + wordCountAux true rest

/-- Word count of a string, as computed by Python `len(s.split())`. -/
def wordCount (s : String) : Nat :=
  wordCountAux false s.toList

/-! ## Plan parsing and plan execution (`auto_analyst.execute_plan`)

`execute_plan` receives the plan as a dict holding a `plan` string and a
`plan_instructions` mapping.  It normalises the plan text, splits it into
agent names, and runs the named agents strictly in that order, yielding one
`(agent, inputs, response)` event per step.  We embed the yielded event
sequence as a list. -/

/-- Plan-text normalisation from `execute_plan`:
`plan.get("plan", "").lower().replace("plan:", "").strip()`. -/
def parse_plan_text (planField : String) : String :=
  pyStrip ⟨removePlanColon (pyLower planField).toList⟩

/-- Plan-step extraction from `execute_plan`:
`[agent.strip() for agent in plan_text.split("->") if agent.strip()]`. -/
def parse_plan_list (planText : String) : List String :=
  ((splitArrow planText.toList).map fun cs => pyStrip ⟨cs⟩).filter fun a => a ≠ ""

/-- A Python value stored in the per-request context dict `dict_`
(strings, plus the empty list stored under `"hint"`). -/
inductive PyVal
  | str (s : String)
  | list (l : List String)
deriving DecidableEq

/-- Model of the executor's environment: `self.agents` (key set),
`self.agent_inputs`, and the effect of one `await self.agents[name](**inputs)`
call — `run` returns `.error msg` when the call raises, and the opaque
result dict (as a blob) otherwise.  `run` does not depend on the outputs of
earlier steps: the source builds each step's inputs only from `dict_` and
`plan_instructions`. -/
structure AgentEnv where
  agents : List String
  agent_inputs : String → List String
  run : String → List (String × PyVal) → Except String String

deriving instance DecidableEq for Except

/-- One event yielded by `execute_plan`: the agent name, the inputs snapshot
(`none` models Python `None` in the `plan_not_found` event), and the
response (`.error msg` models the `{"error": msg}` dict). -/
structure Event where
  agent : String
  inputs : Option (List (String × PyVal))
  response : Except String String
deriving DecidableEq

/-- The context dict `dict_` built at the top of `execute_plan`:
dataset text, styling text, the empty `hint` list, and the goal. -/
def base_dict (query dataset styling : String) : List (String × PyVal) :=
  [("dataset", .str dataset), ("styling_index", .str styling),
   ("hint", .list []), ("goal", .str query)]

/-- Python `d[k]` lookup on an insertion-ordered dict. -/
def dictGet? (d : List (String × PyVal)) (k : String) : Option PyVal :=
  (d.find? fun kv => kv.1 == k).map (·.2)

/-- Python `d[k] = v` on an insertion-ordered dict: overwrite in place if the
key exists, else append. -/
def dictSet (d : List (String × PyVal)) (k : String) (v : PyVal) :
    List (String × PyVal) :=
  if d.any fun kv => kv.1 == k then
    d.map fun kv => if kv.1 == k then (k, v) else kv
  else d ++ [(k, v)]

/-- Model of `auto_analyst.execute_agent`: strips the name, invokes the agent
and catches any exception into an `{"error": str(e)}` response.  (The source
also increments the template usage counter on success; that side effect is
modelled separately by `track_agent_usage` machinery and does not affect the
returned pair.) -/
def execute_agent (env : AgentEnv) (agent_name : String)
    (inputs : List (String × PyVal)) : String × Except String String :=
  (pyStrip agent_name, env.run (pyStrip agent_name) inputs)

/-- Per-step input wiring from `execute_plan`:
`inputs = {x: dict_[x] for x in self.agent_inputs[agent] if x in dict_}`,
then `inputs["plan_instructions"]` is set to the JSON dump of the step's
instruction entry when present, else `""`.  The `instrs` parameter carries
the already-parsed `plan_instructions` dict with values kept as their
`json.dumps` blobs. -/
def step_inputs (env : AgentEnv) (dict_ : List (String × PyVal))
    (instrs : List (String × String)) (agent_name : String) :
    List (String × PyVal) :=
  let base := (env.agent_inputs agent_name).filterMap fun x =>
    (dictGet? dict_ x).map fun v => (x, v)
  match instrs.find? fun kv => kv.1 == agent_name with
  | some kv => dictSet base "plan_instructions" (.str kv.2)
  | none => dictSet base "plan_instructions" (.str "")

/-- One iteration of the `for agent_name in plan_list` loop of
`execute_plan`: unknown names yield an in-place error event and the loop
continues; known names are executed via `execute_agent` (which never
raises). -/
def step_event (env : AgentEnv) (dict_ : List (String × PyVal))
    (instrs : List (String × String)) (agent_name : String) : Event :=
  if env.agents.contains agent_name then
    let inputs := step_inputs env dict_ instrs agent_name
    let r := execute_agent env agent_name inputs
    ⟨r.1, some inputs, r.2⟩
  else
    ⟨agent_name, some [], .error ("Agent '" ++ agent_name ++ "' not available")⟩

/-- Model of `auto_analyst.execute_plan`.  The dataset and styling texts
returned by the retrievers are parameters; `plan` is the plan dict's `plan`
string and `plan_instructions` its instruction mapping (values as their
`json.dumps` blobs; the source's `json.loads` of a string-valued field,
with `{}` on parse failure, happens before this point). -/
def execute_plan (env : AgentEnv) (query dataset styling : String)
    (plan : String) (plan_instructions : List (String × String)) : List Event :=
  let dict_ := base_dict query dataset styling
  let plan_text := parse_plan_text plan
  if containsSubL "basic_qa_agent".toList plan_text.toList then
    let inputs : List (String × PyVal) := [("goal", .str query)]
    let r := execute_agent env "basic_qa_agent" inputs
    [⟨r.1, some inputs, r.2⟩]
  else
    let plan_list := parse_plan_list plan_text
    if plan_list.isEmpty || plan_list.all (fun a => !env.agents.contains a) then
      [⟨"plan_not_found", none, .error "No valid agents found in plan"⟩]
    else
      plan_list.map (step_event env dict_ plan_instructions)

/-- Environment used to witness the plan-executor theorems: two loaded
agents, of which `data_viz_agent` always raises. -/
def wEnv : AgentEnv where
  agents := ["preprocessing_agent", "data_viz_agent"]
  agent_inputs := fun _ => ["goal", "dataset", "plan_instructions"]
  run := fun n _ => if n = "preprocessing_agent" then .ok "ok" else .error "boom"

/-- Plan string used to witness the plan-executor theorems. -/
def wPlan : String := "Plan: preprocessing_agent -> data_viz_agent"

/-! ## The planner module (`planner_module.forward`)

`forward` first short-circuits when the agent-description string is missing
or too short; otherwise it consults the complexity allocator and dispatches
to a sub-planner, falling back to the intermediate planner on failure.  The
LM is abstracted as an oracle; we also count how many LM invocations the
call performs. -/

/-- The remediation payload of the `no_agents_available` return value of
`planner_module.forward`. -/
def no_agents_message : String :=
  "No agents are currently enabled for analysis. Please enable at least one agent (preprocessing, statistical analysis, machine learning, or visualization) in your template preferences to proceed with data analysis."

/-- The `plan_instructions` payload of a `planner_module.forward` return
value: a `{"message": ...}` dict, the fixed basic-QA string, the
`plan_instructions` field of the LM plan, or a `{"error": ...}` dict. -/
inductive PlannerInstr
  | message (s : String)
  | note (s : String)
  | fromLM (s : String)
  | err (s : String)
deriving DecidableEq

/-- One return value of `planner_module.forward` (the dict-plan case is
flattened: `plan` holds the LM plan text and `instructions` its
`plan_instructions` field). -/
structure PlannerResult where
  complexity : String
  plan : String
  instructions : PlannerInstr
deriving DecidableEq

/-- A sub-planner's output (`plan` and `plan_instructions` fields). -/
structure PlanOut where
  plan : String
  plan_instructions : String
deriving DecidableEq

/-- The LM oracle behind `planner_module`: the complexity allocator
(`dspy.Predict`) and the keyed sub-planners.  The fixed
`str(self.planner_desc)` argument of the allocator is a constant absorbed
into the oracle.  `.error` models a raised exception. -/
structure PlannerLM where
  allocator : String → String → Except String String
  subplanner : String → String → String → String → Except String PlanOut

/-- The guard at the top of `planner_module.forward`:
`not Agent_desc or Agent_desc == "[]" or len(str(Agent_desc).strip()) < 10`. -/
def planner_guard (agentDesc : String) : Bool :=
  agentDesc == "" || agentDesc == "[]"
    || decide ((pyStrip agentDesc).length < 10)

/-- The fixed `no_agents_available` return dict of `planner_module.forward`. -/
def no_agents_result : PlannerResult :=
  ⟨"no_agents_available", "no_agents_available", .message no_agents_message⟩

/-- Model of `planner_module.forward`.  Returns the result together with the
number of LM invocations performed (allocator plus sub-planner calls).  An
unknown complexity word raises `KeyError` on the planner-dict lookup before
any sub-planner LM call, which the inner handler turns into the
intermediate-planner fallback. -/
def planner_forward (lm : PlannerLM) (goal dataset agentDesc : String) :
    PlannerResult × Nat :=
  if planner_guard agentDesc then (no_agents_result, 0)
  else
    match lm.allocator goal dataset with
    | .error e => (⟨"error", "basic_qa_agent", .err ("Planning error: " ++ e)⟩, 1)
    | .ok compRaw =>
      let comp := pyStrip compRaw
      if comp == "unrelated" then
        (⟨comp, "basic_qa_agent",
          .note "\x7b'basic_qa_agent':'Not a data related query, please ask a data related-query'\x7d"⟩, 1)
      else
        let validKey : Bool :=
          comp == "advanced" || comp == "intermediate" || comp == "basic"
        let firstCalls : Nat := if validKey then 1 else 0
        let firstTry : Except String PlanOut :=
          if validKey then lm.subplanner comp goal dataset agentDesc
          else .error "KeyError"
        match firstTry with
        | .ok p =>
          if containsSubL "no_agents_available".toList p.plan.toList then
            (no_agents_result, 1 + firstCalls)
          else
            (⟨comp, p.plan, .fromLM p.plan_instructions⟩, 1 + firstCalls)
        | .error _ =>
          match lm.subplanner "intermediate" goal dataset agentDesc with
          | .ok p =>
            if containsSubL "no_agents_available".toList p.plan.toList then
              (no_agents_result, 1 + firstCalls + 1)
            else
              (⟨"intermediate", p.plan, .fromLM p.plan_instructions⟩,
                1 + firstCalls + 1)
          | .error e =>
            (⟨"error", "basic_qa_agent", .err ("Planning error: " ++ e)⟩,
              1 + firstCalls + 1)

/-- LM oracle used to witness the planner theorem; it is never reached. -/
def wLM : PlannerLM where
  allocator := fun _ _ => .error "unreachable"
  subplanner := fun _ _ _ _ => .error "unreachable"

/-! ## Token estimation (`_estimate_tokens` in `app.py`)

When the tokenizer raises, both sides fall back to
`int(word_count * DEFAULT_TOKEN_RATIO)` with `DEFAULT_TOKEN_RATIO = 1.5`.
For every word count `w` below 2^52 the float product `w * 1.5` is exact,
so Python's `int(...)` truncation computes `⌊3w/2⌋`, embedded here as
`3 * w / 2` on `Nat`. -/

/-- The result dict of `_estimate_tokens`. -/
structure TokenEstimate where
  prompt : Nat
  completion : Nat
  total : Nat
deriving DecidableEq

/-- Model of `app._estimate_tokens`: the tokenizer oracle is `some enc`
when `ai_manager.tokenizer.encode` succeeds and `none` when it raises, in
which case both sides are estimated as `int(word_count * 1.5)`. -/
def _estimate_tokens (tokenizer : Option (String → Nat))
    (input_text output_text : String) : TokenEstimate :=
  match tokenizer with
  | some enc =>
    ⟨enc input_text, enc output_text, enc input_text + enc output_text⟩
  | none =>
    let p := 3 * wordCount input_text / 2
    let c := 3 * wordCount output_text / 2
    ⟨p, c, p + c⟩

/-- What the spec sentence asks for instead: `ceil(word_count × 1.5)`,
i.e. `⌈3w/2⌉` on naturals. -/
def specCeilEstimate (w : Nat) : Nat := (3 * w + 1) / 2


/-! ## Deep-analysis report persistence (`app.py`)

`update_report_in_db` inside `_generate_deep_analysis_stream` loads the
report row and updates it in place; `_generate_deep_analysis_stream` calls
it after each stage.  Wall-clock times are modelled as `Nat`. -/

/-- Model of a `deep_analysis_reports` row (the fields touched by
`update_report_in_db`; `report_uuid`, `user_id`, `goal` and the credit
counters are never written by it and are omitted). -/
structure Report where
  status : String
  progress_percentage : Nat
  start_time : Nat
  end_time : Option Nat
  duration_seconds : Option Nat
  deep_questions : Option String
  deep_plan : Option String
  analysis_code : Option String
  final_conclusion : Option String
  report_summary : Option String
  summaries : Option String
  plotly_figures : Option String
  synthesis : Option String
  html_report : Option String
  error_message : Option String
  updated_at : Nat
deriving DecidableEq

/-- The serialized analysis dict passed as `content` for the `analysis`
step.  Each field is `none` when the key is absent; JSON-serialized values
(`summaries`, `plotly_figs`, `synthesis`) are kept as their serialized
blobs. -/
structure AnalysisBundle where
  deep_questions : Option String
  deep_plan : Option String
  code : Option String
  final_conclusion : Option String
  summaries : Option String
  plotly_figs : Option String
  synthesis : Option String
deriving DecidableEq

/-- A `content` argument of `update_report_in_db`: a text payload
(questions, planning, or the final HTML) or the serialized analysis dict. -/
inductive UpdContentV
  | text (s : String)
  | bundle (b : AnalysisBundle)
deriving DecidableEq

/-- Python truthiness of an optional string (`None` and `""` are falsy). -/
def truthyOpt : Option String → Bool
  | none => false
  | some s => s ≠ ""

/-- Python truthiness of the `content` argument (the analysis dict is
always non-empty at its call site, hence truthy). -/
def contentTruthy : Option UpdContentV → Bool
  | none => false
  | some (.text s) => s ≠ ""
  | some (.bundle _) => true

/-- The text of a `content` argument (its call sites pass strings for the
`questions`, `planning` and `completed` steps). -/
def contentText : Option UpdContentV → Option String
  | some (.text s) => some s
  | _ => none

/-- The `step == "analysis"` branch of `update_report_in_db`: copy each
truthy field of the serialized analysis dict onto the row, deriving
`report_summary` from the conclusion with the `**Conclusion**` marker
removed and a 200-character truncation. -/
def applyBundle (r : Report) (b : AnalysisBundle) : Report :=
  let r1 := if truthyOpt b.deep_questions then
    { r with deep_questions := b.deep_questions } else r
  let r2 := if truthyOpt b.deep_plan then
    { r1 with deep_plan := b.deep_plan } else r1
  let r3 := if truthyOpt b.code then
    { r2 with analysis_code := b.code } else r2
  let r4 := match b.final_conclusion, truthyOpt b.final_conclusion with
    | some c, true =>
      let conclusion : String := ⟨removeConclusionMarks c.toList⟩
      { r3 with final_conclusion := some c,
                report_summary := some (if conclusion.length > 200 then
                  conclusion.take 200 ++ "..." else conclusion) }
    | _, _ => r3
  let r5 := if truthyOpt b.summaries then
    { r4 with summaries := b.summaries } else r4
  let r6 := if truthyOpt b.plotly_figs then
    { r5 with plotly_figures := b.plotly_figs } else r5
  if truthyOpt b.synthesis then { r6 with synthesis := b.synthesis } else r6

/-- The `elif` chain of `update_report_in_db` over the step-specific
fields. -/
def applyStepContent (r : Report) (step : Option String)
    (content : Option UpdContentV) : Report :=
  if step == some "questions" && contentTruthy content then
    { r with deep_questions := contentText content }
  else if step == some "planning" && contentTruthy content then
    { r with deep_plan := contentText content }
  else if step == some "analysis" && contentTruthy content then
    match content with
    | some (.bundle b) => applyBundle r b
    | _ => r
  else r

/-- The `if step == "completed"` block of `update_report_in_db`: write the
HTML report when provided, and set `end_time` and
`duration_seconds = int(end_time − start_time)`.  No other step writes
these fields, and no step at all writes `error_message`. -/
def applyCompleted (r : Report) (step : Option String)
    (content : Option UpdContentV) (now : Nat) : Report :=
  if step == some "completed" then
    let r1 := match content, contentTruthy content with
      | some (.text s), true => { r with html_report := some s }
      | _, _ => r
    { r1 with end_time := some now,
              duration_seconds := some (now - r.start_time) }
  else r

/-- Model of `update_report_in_db` applied to a found report row (when the
row is missing, the session raises, or `report_id` is unset, nothing is
written). -/
def update_report_in_db (r : Report) (status : String) (progress : Nat)
    (step : Option String) (content : Option UpdContentV) (now : Nat) :
    Report :=
  let r1 := { r with status := status, progress_percentage := progress }
  let r2 := applyStepContent r1 step content
  let r3 := applyCompleted r2 step content now
  { r3 with updated_at := now }

/-- One update yielded by the deep analyzer's
`execute_deep_analysis_streaming` as consumed by
`_generate_deep_analysis_stream`: its `step`, `status` and `progress`
fields, the stage content, and the truthiness of `final_result`. -/
structure StreamUpdate where
  step : String
  status : String
  progress : Nat
  content : Option UpdContentV
  hasFinal : Bool
deriving DecidableEq

/-- The `(status, progress)` pairs of the `update_report_in_db` calls made
by the `async for` loop of `_generate_deep_analysis_stream`, plus its
after-loop no-final check: `questions`/`planning` completions write
`("running", progress)`; a conclusion completion with a truthy
`final_result` writes `("running", progress)` then `("completed", 100)`
and records that a final result was seen; an `error` update writes
`("failed", 0)` and returns; a run that ends without a final result writes
`("failed", 0)`. -/
def deep_db_writes_loop : Bool → List StreamUpdate → List (String × Nat)
  | sawFinal, [] => if sawFinal then [] else [("failed", 0)]
  | sawFinal, u :: rest =>
    if u.step == "questions" && u.status == "completed" then
      ("running", u.progress) :: deep_db_writes_loop sawFinal rest
    else if u.step == "planning" && u.status == "completed" then
      ("running", u.progress) :: deep_db_writes_loop sawFinal rest
    else if u.step == "conclusion" && u.status == "completed" then
      if u.hasFinal then
        ("running", u.progress) :: ("completed", 100)
          :: deep_db_writes_loop true rest
      else
        deep_db_writes_loop false rest
    else if u.step == "error" then
      [("failed", 0)]
    else
      deep_db_writes_loop sawFinal rest

/-- The full sequence of `(status, progress_percentage)` pairs persisted
for one deep-analysis run: the pending row created by the endpoint
(progress 0), the initial `("running", 5)` write, then the loop's writes. -/
def deep_db_writes (updates : List StreamUpdate) : List (String × Nat) :=
  ("pending", 0) :: ("running", 5) :: deep_db_writes_loop false updates

/-- Modelled from the spec: the deep analyzer module
(`execute_deep_analysis_streaming`, whose source is not under `src/`)
yields, on a successful run, stage updates `questions`, `planning` and
`conclusion` in order, each with `status = "completed"`, with
non-decreasing stage progresses and the final result attached to the
conclusion (§4.7 of the spec gives the stage progresses 20, 40 and the
conclusion stage ≤ 100). -/
def specDeepSuccessTrace (q p c : Nat) : List StreamUpdate :=
  [⟨"questions", "completed", q, none, false⟩,
   ⟨"planning", "completed", p, none, false⟩,
   ⟨"conclusion", "completed", c, none, true⟩]

/-- Modelled from the spec: a run on which the deep analyzer reports a
stage error after the `questions` stage. -/
def specDeepErrorTrace : List StreamUpdate :=
  [⟨"questions", "completed", 20, none, false⟩,
   ⟨"error", "failed", 0, none, false⟩]

/-- A freshly created pending report row (as built by the endpoint before
streaming starts), used to witness the persistence theorems. -/
def wReport : Report where
  status := "pending"
  progress_percentage := 0
  start_time := 50
  end_time := none
  duration_seconds := none
  deep_questions := none
  deep_plan := none
  analysis_code := none
  final_conclusion := none
  report_summary := none
  summaries := none
  plotly_figures := none
  synthesis := none
  html_report := none
  error_message := none
  updated_at := 50

/-! ## The template store and the agent registry (`src/agents/agents.py`)

The store rows are modelled with the fields the registry reads; wall-clock
datetimes are `Nat` (`datetime.min` is 0).  A store that raises is modelled
as `Except.error`; log emissions are reported as the severity used by the
source. -/

/-- Model of an `agent_templates` row (the fields the registry reads;
`description`, `prompt_template` and `category` only feed the generated
signature text and are omitted from this projection). -/
structure AgentTemplate where
  template_id : Nat
  template_name : String
  variant_type : String
  is_active : Bool
deriving DecidableEq

/-- Model of a `user_template_preferences` row (timestamps other than
`last_used_at` are never read back and are omitted). -/
structure UserTemplatePreference where
  user_id : Nat
  template_id : Nat
  is_enabled : Bool
  usage_count : Nat
  last_used_at : Option Nat
deriving DecidableEq

/-- The template store: the two tables the registry touches. -/
structure TemplateDb where
  templates : List AgentTemplate
  prefs : List UserTemplatePreference
deriving DecidableEq

/-- Severity of a log emission. -/
inductive LogLevel
  | debug
  | warning
  | error
deriving DecidableEq

/-- The four core individual agent names (`default_agent_names` /
`core_agent_names` in the source). -/
def default_agent_names : List String :=
  ["preprocessing_agent", "statistical_analytics_agent", "sk_learn_agent",
   "data_viz_agent"]

/-- The four core planner agent names (`default_planner_agent_names` /
`core_planner_agent_names` in the source). -/
def default_planner_agent_names : List String :=
  ["planner_preprocessing_agent", "planner_statistical_analytics_agent",
   "planner_sk_learn_agent", "planner_data_viz_agent"]

/-- The row filter of the per-pair preference query. -/
def prefFor (uid tid : Nat) (p : UserTemplatePreference) : Bool :=
  p.user_id == uid && p.template_id == tid

/-- `db_session.query(UserTemplatePreference).filter(user, template).first()`. -/
def findPref (uid tid : Nat) (prefs : List UserTemplatePreference) :
    Option UserTemplatePreference :=
  prefs.find? (prefFor uid tid)

/-- The template filter of
`load_user_enabled_templates_for_planner_from_db`:
`is_active == True` and `variant_type in ['planner', 'both']`. -/
def planner_active_variant (t : AgentTemplate) : Bool :=
  t.is_active && (t.variant_type == "planner" || t.variant_type == "both")

/-- The per-template enablement rule of the planner loader: the preference
record decides when present; otherwise default planner agents are enabled
and all others disabled. -/
def template_enabled_for_user (uid : Nat) (db : TemplateDb)
    (t : AgentTemplate) : Bool :=
  match findPref uid t.template_id db.prefs with
  | some p => p.is_enabled
  | none => default_planner_agent_names.contains t.template_name

/-- One element of the loader's `enabled_templates` list:
`{'template': .., 'usage_count': .., 'last_used_at': ..}`. -/
structure EnabledEntry where
  template : AgentTemplate
  usage_count : Nat
  last_used_at : Option Nat
deriving DecidableEq

/-- The `enabled_templates` element built for a template: usage data from
the preference record, defaulting to `0` / `None`. -/
def mkEntry (uid : Nat) (db : TemplateDb) (t : AgentTemplate) : EnabledEntry :=
  ⟨t, ((findPref uid t.template_id db.prefs).map (·.usage_count)).getD 0,
    (findPref uid t.template_id db.prefs).bind (·.last_used_at)⟩

/-- The `enabled_templates` list of
`load_user_enabled_templates_for_planner_from_db`, in table order. -/
def planner_enabled_entries (uid : Nat) (db : TemplateDb) :
    List EnabledEntry :=
  (db.templates.filter planner_active_variant).filterMap fun t =>
    if template_enabled_for_user uid db t then some (mkEntry uid db t)
    else none

/-- The sort key `(usage_count, last_used_at or datetime.min)`. -/
def keyOf (e : EnabledEntry) : Nat × Nat :=
  (e.usage_count, e.last_used_at.getD 0)

/-- Python tuple comparison `x <= y` on the sort keys. -/
def keyLe (x y : Nat × Nat) : Bool :=
  decide (x.1 < y.1) || (decide (x.1 = y.1) && decide (x.2 ≤ y.2))

/-- The ordering used by `enabled_templates.sort(key=.., reverse=True)`:
descending by key, stable on ties (Python's sort is stable and `reverse`
preserves the original order of equal elements). -/
def sortRel (a b : EnabledEntry) : Prop :=
  keyLe (keyOf b) (keyOf a) = true

instance : DecidableRel sortRel := fun a b => by
  unfold sortRel
  infer_instance

instance : IsTotal EnabledEntry sortRel where
  total := by
    intro a b
    unfold sortRel keyLe
    simp only [Bool.or_eq_true, Bool.and_eq_true, decide_eq_true_eq]
    omega

instance : IsTrans EnabledEntry sortRel where
  trans := by
    intro a b c
    unfold sortRel keyLe
    simp only [Bool.or_eq_true, Bool.and_eq_true, decide_eq_true_eq]
    omega

/-- The sorted-and-capped selection `enabled_templates[:10]` (a stable
descending sort, as Python's `list.sort(key=.., reverse=True)`). -/
def planner_visible_entries (uid : Nat) (db : TemplateDb) :
    List EnabledEntry :=
  (List.insertionSort sortRel (planner_enabled_entries uid db)).take 10

/-- The planner-visible agent set for a user: the names of the selected
templates, in selection order (the source returns a dict of signatures
keyed by these names, in this insertion order). -/
def planner_visible_agents (uid : Nat) (db : TemplateDb) : List String :=
  (planner_visible_entries uid db).map (·.template.template_name)

/-- Model of `load_user_enabled_templates_for_planner_from_db` including
its failure semantics: a missing user yields no templates (no store access,
no log); a raising store is caught, logged at ERROR severity, and an empty
mapping is returned; otherwise the planner-visible names are returned and
a DEBUG line is logged. -/
def load_user_enabled_templates_for_planner_from_db (userId : Option Nat)
    (store : Except String TemplateDb) : List String × Option LogLevel :=
  match userId with
  | none => ([], none)
  | some uid =>
    match store with
    | .error _ => ([], some .error)
    | .ok db => (planner_visible_agents uid db, some .debug)

/-- The per-template enablement rule of the individual loader
(`load_user_enabled_templates_from_db`): preference record when present,
else the four core names are enabled by default. -/
def individual_enabled_for_user (uid : Nat) (db : TemplateDb)
    (t : AgentTemplate) : Bool :=
  match findPref uid t.template_id db.prefs with
  | some p => p.is_enabled
  | none => default_agent_names.contains t.template_name

/-- The enabled template names computed by
`load_user_enabled_templates_from_db` (all active templates, no variant
filter, no cap). -/
def user_enabled_template_names (uid : Nat) (db : TemplateDb) :
    List String :=
  (db.templates.filter (·.is_active)).filterMap fun t =>
    if individual_enabled_for_user uid db t then some t.template_name
    else none

/-- Model of `load_user_enabled_templates_from_db` including its failure
semantics: on a raising store the exception is caught, logged at ERROR
severity, and an empty mapping — not the core four — is returned. -/
def load_user_enabled_templates_from_db (userId : Option Nat)
    (store : Except String TemplateDb) : List String × Option LogLevel :=
  match userId with
  | none => ([], none)
  | some uid =>
    match store with
    | .error _ => ([], some .error)
    | .ok db => (user_enabled_template_names uid db, none)

/-- Model of `load_all_available_templates_from_db` (all active templates
with `variant_type in ['individual', 'both']`, regardless of preferences);
on a raising store it returns an empty mapping and logs at ERROR
severity. -/
def load_all_available_templates_from_db
    (store : Except String TemplateDb) : List String × Option LogLevel :=
  match store with
  | .error _ => ([], some .error)
  | .ok db =>
    ((db.templates.filter fun t =>
        t.is_active && (t.variant_type == "individual"
          || t.variant_type == "both")).map (·.template_name), none)

/-- The core-agent loading block of `auto_analyst_ind.__init__` (the
`not agents and user_id and db_session` case): each core template found
active in the store is loaded; when the store raises, the handler calls
`_load_default_agents_fallback`, which loads all four core agents, and the
failure is logged at ERROR severity. -/
def auto_analyst_ind_core_load (store : Except String TemplateDb) :
    List String × Option LogLevel :=
  match store with
  | .error _ => (default_agent_names, some .error)
  | .ok db =>
    (default_agent_names.filter fun n =>
      db.templates.any fun t => t.template_name == n && t.is_active, none)

/-- The core-planner-agent loading block of `auto_analyst.__init__` (run
when the planner loader produced no agents): each core planner template
found active and not explicitly disabled is loaded; when the store raises,
the handler logs at ERROR severity and deliberately loads nothing
(`# Don't fallback - user must explicitly enable agents`). -/
def auto_analyst_core_planner_load (uid : Nat)
    (store : Except String TemplateDb) : List String × Option LogLevel :=
  match store with
  | .error _ => ([], some .error)
  | .ok db =>
    (default_planner_agent_names.filter fun n =>
      match db.templates.find? fun t => t.template_name == n && t.is_active with
      | none => false
      | some t =>
        match findPref uid t.template_id db.prefs with
        | some p => p.is_enabled
        | none => true, none)

/-- The agent names loaded by `auto_analyst.__init__` for a user: the
planner-visible template agents (core planner variants skipped), then — only
when that produced nothing — the core planner agents, then always
`basic_qa_agent`. -/
def auto_analyst_agent_names (uid : Nat)
    (store : Except String TemplateDb) : List String :=
  let fromTemplates :=
    (load_user_enabled_templates_for_planner_from_db (some uid) store).1.filter
      fun n => !default_planner_agent_names.contains n
  let withCore :=
    if fromTemplates.isEmpty then
      fromTemplates ++ (auto_analyst_core_planner_load uid store).1
    else fromTemplates
  withCore ++ ["basic_qa_agent"]

/-! ## Preference toggling (`toggle_user_template_preference`) -/

/-- The in-place update of the queried preference row
(`preference.is_enabled = is_enabled`): the first row matching the pair is
replaced; under the store's `(user, template)` unique constraint there is
at most one. -/
def setPrefEnabled (uid tid : Nat) (e : Bool) :
    List UserTemplatePreference → List UserTemplatePreference
  | [] => []
  | p :: ps =>
    if prefFor uid tid p then { p with is_enabled := e } :: ps
    else p :: setPrefEnabled uid tid e ps

/-- Model of `toggle_user_template_preference`.  `commitErr` is the
outcome of `db_session.commit()`: `some e` models a raised exception, upon
which the handler rolls the session back (the store is left unchanged) and
returns the error message; timestamps (`created_at`, `updated_at`) are
wall-clock noise not read back by any claim and are omitted from the row
model. -/
def toggle_user_template_preference (uid tid : Nat) (is_enabled : Bool)
    (commitErr : Option String) (db : TemplateDb) :
    (Bool × String) × TemplateDb :=
  match db.templates.find? fun t => t.template_id == tid && t.is_active with
  | none => ((false, "Template not found or inactive"), db)
  | some t =>
    let newPrefs :=
      match findPref uid tid db.prefs with
      | some _ => setPrefEnabled uid tid is_enabled db.prefs
      | none => db.prefs ++ [⟨uid, tid, is_enabled, 0, none⟩]
    match commitErr with
    | some e => ((false, "Error updating template preference: " ++ e), db)
    | none =>
      ((true, "Template '" ++ t.template_name ++ "' "
          ++ (if is_enabled then "enabled" else "disabled")
          ++ " successfully"),
        { db with prefs := newPrefs })

/-- Store used to witness the registry cap theorem: eleven enabled planner
templates for user 1 with strictly decreasing usage counts. -/
def wDb : TemplateDb where
  templates :=
    [⟨1, "tpl01", "planner", true⟩, ⟨2, "tpl02", "planner", true⟩,
     ⟨3, "tpl03", "planner", true⟩, ⟨4, "tpl04", "planner", true⟩,
     ⟨5, "tpl05", "planner", true⟩, ⟨6, "tpl06", "planner", true⟩,
     ⟨7, "tpl07", "planner", true⟩, ⟨8, "tpl08", "planner", true⟩,
     ⟨9, "tpl09", "planner", true⟩, ⟨10, "tpl10", "planner", true⟩,
     ⟨11, "tpl11", "both", true⟩]
  prefs :=
    [⟨1, 1, true, 11, none⟩, ⟨1, 2, true, 10, none⟩, ⟨1, 3, true, 9, none⟩,
     ⟨1, 4, true, 8, none⟩, ⟨1, 5, true, 7, none⟩, ⟨1, 6, true, 6, none⟩,
     ⟨1, 7, true, 5, none⟩, ⟨1, 8, true, 4, none⟩, ⟨1, 9, true, 3, none⟩,
     ⟨1, 10, true, 2, none⟩, ⟨1, 11, true, 1, none⟩]

/-- Store used to witness the toggle theorems: one active template, no
preference rows yet. -/
def wDb2 : TemplateDb where
  templates := [⟨1, "custom_agent", "both", true⟩]
  prefs := []

/-! ## Idempotence of `pyStrip`

Needed because `execute_agent` re-strips names that `parse_plan_list`
already stripped. -/

theorem pyStrip_data (s : String) :
    (pyStrip s).toList
      = (s.toList.dropWhile Char.isWhitespace).rdropWhile Char.isWhitespace := rfl

theorem pyStrip_idem (s : String) : pyStrip (pyStrip s) = pyStrip s := by
  apply String.ext
  show ((pyStrip s).toList.dropWhile
      Char.isWhitespace).rdropWhile Char.isWhitespace = (pyStrip s).toList
  rw [pyStrip_data]
  set m := s.toList.dropWhile Char.isWhitespace with hm
  have hmm : m.dropWhile Char.isWhitespace = m := by
    rw [hm]; exact List.dropWhile_idempotent _ s.toList
  have hpre : m.rdropWhile Char.isWhitespace <+: m := List.rdropWhile_prefix _ m
  have hdrop : (m.rdropWhile Char.isWhitespace).dropWhile Char.isWhitespace
      = m.rdropWhile Char.isWhitespace := by
    rcases hn : m.rdropWhile Char.isWhitespace with _ | ⟨a, as⟩
    · simp
    · obtain ⟨t, ht⟩ := hpre
      rw [hn] at ht
      have hu : m = a :: (as ++ t) := by rw [← ht]; simp
      have hpa : Char.isWhitespace a = false := by
        have hh := List.head?_dropWhile_not Char.isWhitespace s.toList
        rw [← hm, hu] at hh
        simpa using hh
      simp [List.dropWhile_cons, hpa]
  rw [hdrop]
  exact List.rdropWhile_idempotent _ _

theorem mem_parse_plan_list_strip {a : String} {t : String}
    (h : a ∈ parse_plan_list t) : pyStrip a = a := by
  unfold parse_plan_list at h
  have h1 := List.mem_filter.mp h
  obtain ⟨cs, _, hcs⟩ := List.mem_map.mp h1.1
  rw [← hcs]
  exact pyStrip_idem _

theorem step_event_agent (env : AgentEnv) (dict_ : List (String × PyVal))
    (instrs : List (String × String)) {a t : String}
    (ha : a ∈ parse_plan_list t) : (step_event env dict_ instrs a).agent = a := by
  unfold step_event
  by_cases hc : env.agents.contains a = true
  · rw [if_pos hc]
    simp only [execute_agent]
    exact mem_parse_plan_list_strip ha
  · rw [if_neg hc]

theorem execute_plan_no_shortcircuit (env : AgentEnv)
    (query dataset styling plan : String)
    (instrs : List (String × String))
    (h1 : containsSubL "basic_qa_agent".toList (parse_plan_text plan).toList
      = false)
    (h2 : (parse_plan_list (parse_plan_text plan)).any
      (fun a => env.agents.contains a) = true) :
    execute_plan env query dataset styling plan instrs
      = (parse_plan_list (parse_plan_text plan)).map
          (step_event env (base_dict query dataset styling) instrs) := by
  obtain ⟨a, ha, hca⟩ := List.any_eq_true.mp h2
  unfold execute_plan
  rw [if_neg (fun hcontra => by rw [h1] at hcontra; exact Bool.false_ne_true hcontra)]
  rw [if_neg ?hcond]
  case hcond =>
    intro hcontra
    rcases Bool.or_eq_true_iff.mp hcontra with he | hall
    · rw [List.isEmpty_iff] at he
      rw [he] at ha
      exact absurd ha (List.not_mem_nil a)
    · have hna := List.all_eq_true.mp hall a ha
      rw [hca] at hna
      exact Bool.false_ne_true hna

/-- C1.  For every plan and query, whenever the plan text does not contain
the `basic_qa_agent` sentinel and at least one parsed step resolves to a
loaded agent, the event sequence yielded by `execute_plan` has an agent-name
projection exactly equal to the parsed step list, in order (there is not
even a trailing error event: per-step errors are emitted in place under the
step's own name), and the steps are executed strictly sequentially in plan
order. -/
theorem executePlanEventsMatchSteps (env : AgentEnv)
    (query dataset styling plan : String)
    (instrs : List (String × String))
    (h1 : containsSubL "basic_qa_agent".toList (parse_plan_text plan).toList
      = false)
    (h2 : (parse_plan_list (parse_plan_text plan)).any
      (fun a => env.agents.contains a) = true) :
    (execute_plan env query dataset styling plan instrs).map Event.agent
      = parse_plan_list (parse_plan_text plan) := by
  rw [execute_plan_no_shortcircuit env query dataset styling plan instrs h1 h2]
  rw [List.map_map]
  have hid : ∀ a ∈ parse_plan_list (parse_plan_text plan),
      (Event.agent ∘ step_event env (base_dict query dataset styling) instrs) a
        = a := by
    intro a ha
    exact step_event_agent env (base_dict query dataset styling) instrs ha
  calc (parse_plan_list (parse_plan_text plan)).map
        (Event.agent ∘ step_event env (base_dict query dataset styling) instrs)
      = (parse_plan_list (parse_plan_text plan)).map (fun a => a) :=
        List.map_congr_left hid
    _ = parse_plan_list (parse_plan_text plan) := List.map_id' _

theorem executePlanEventsMatchSteps_witness :
    (containsSubL "basic_qa_agent".toList (parse_plan_text wPlan).toList
        = false)
    ∧ ((parse_plan_list (parse_plan_text wPlan)).any
        (fun a => wEnv.agents.contains a) = true)
    ∧ (execute_plan wEnv "q" "ds" "st" wPlan []).map Event.agent
        = ["preprocessing_agent", "data_viz_agent"] := by
  refine ⟨by decide, by decide, ?_⟩
  rw [executePlanEventsMatchSteps wEnv "q" "ds" "st" wPlan [] (by decide)
    (by decide)]
  decide

/-- C2.  If one step of a plan raises, `execute_plan` yields an error event
keyed by that step's (stripped) agent name, in its position, and still
yields the events of every preceding and following step unchanged: the
whole event list decomposes around the failing step, so a per-agent error
never aborts the remaining steps, and each step runs on the original
context dict (`base_dict`), with no dynamic variable passing beyond
`plan_instructions`. -/
theorem executePlanErrorContained (env : AgentEnv)
    (query dataset styling plan : String)
    (instrs : List (String × String)) (pre post : List String) (s msg : String)
    (h1 : containsSubL "basic_qa_agent".toList (parse_plan_text plan).toList
      = false)
    (hsplit : parse_plan_list (parse_plan_text plan) = pre ++ s :: post)
    (hs : env.agents.contains s = true)
    (herr : env.run s
      (step_inputs env (base_dict query dataset styling) instrs s)
      = .error msg) :
    execute_plan env query dataset styling plan instrs
      = pre.map (step_event env (base_dict query dataset styling) instrs)
        ++ Event.mk s
            (some (step_inputs env (base_dict query dataset styling) instrs s))
            (.error msg)
          :: post.map (step_event env (base_dict query dataset styling) instrs)
    := by
  have hmem : s ∈ parse_plan_list (parse_plan_text plan) := by
    rw [hsplit]; exact List.mem_append_right pre (List.mem_cons_self s post)
  have h2 : (parse_plan_list (parse_plan_text plan)).any
      (fun a => env.agents.contains a) = true :=
    List.any_eq_true.mpr ⟨s, hmem, hs⟩
  rw [execute_plan_no_shortcircuit env query dataset styling plan instrs h1 h2]
  rw [hsplit, List.map_append, List.map_cons]
  have hstrip : pyStrip s = s := mem_parse_plan_list_strip hmem
  have heq : step_event env (base_dict query dataset styling) instrs s
      = Event.mk s
          (some (step_inputs env (base_dict query dataset styling) instrs s))
          (.error msg) := by
    unfold step_event execute_agent
    rw [if_pos hs]
    simp only [hstrip, herr]
  rw [heq]

theorem executePlanErrorContained_witness :
    execute_plan wEnv "q" "ds" "st" wPlan []
      = ["preprocessing_agent"].map
          (step_event wEnv (base_dict "q" "ds" "st") [])
        ++ Event.mk "data_viz_agent"
            (some (step_inputs wEnv (base_dict "q" "ds" "st") []
              "data_viz_agent"))
            (.error "boom")
          :: ([].map (step_event wEnv (base_dict "q" "ds" "st") [])) :=
  executePlanErrorContained wEnv "q" "ds" "st" wPlan []
    ["preprocessing_agent"] [] "data_viz_agent" "boom"
    (by decide) (by decide) (by decide) (by decide)


/-- C6.  If the agent-description string is empty, the literal `"[]"`, or
below the 10-character threshold after stripping, `planner_module.forward`
returns the `no_agents_available` plan with the remediation-message
instruction payload and performs zero LM invocations (neither the
complexity classifier nor any sub-planner runs). -/
theorem plannerNoAgentsShortCircuit (lm : PlannerLM)
    (goal dataset agentDesc : String)
    (h : agentDesc = "" ∨ agentDesc = "[]" ∨ (pyStrip agentDesc).length < 10) :
    planner_forward lm goal dataset agentDesc = (no_agents_result, 0) := by
  have hg : planner_guard agentDesc = true := by
    unfold planner_guard
    rcases h with h | h | h
    · rw [h]; rfl
    · rw [h]; rfl
    · simp [h]
  unfold planner_forward
  rw [if_pos hg]

theorem plannerNoAgentsShortCircuit_witness :
    planner_forward wLM "some goal" "some dataset" "[]"
      = (no_agents_result, 0) :=
  plannerNoAgentsShortCircuit wLM "some goal" "some dataset" "[]"
    (Or.inr (Or.inl rfl))

theorem estimateTokensNotCeil_counterexample :
    (_estimate_tokens none "hello" "a b c").prompt = 1
    ∧ specCeilEstimate (wordCount "hello") = 2
    ∧ (_estimate_tokens none "hello" "a b c").completion = 4
    ∧ specCeilEstimate (wordCount "a b c") = 5 := by
  decide

/-- C7 (amended).  When exact tokenizer counts are unavailable, prompt and
completion tokens are each estimated as `int(word_count × 1.5)`, i.e.
`⌊3w/2⌋` — truncation, not the spec's `ceil`: the ceiling exceeds the
computed estimate by exactly `w mod 2`, so the two agree only on even word
counts.  When the tokenizer is available its exact counts are used. -/
theorem estimateTokensTruncates (tok : String → Nat)
    (input_text output_text : String) :
    (_estimate_tokens none input_text output_text
      = ⟨3 * wordCount input_text / 2, 3 * wordCount output_text / 2,
         3 * wordCount input_text / 2 + 3 * wordCount output_text / 2⟩)
    ∧ (_estimate_tokens (some tok) input_text output_text
      = ⟨tok input_text, tok output_text, tok input_text + tok output_text⟩)
    ∧ (∀ w : Nat, specCeilEstimate w = 3 * w / 2 + w % 2) := by
  refine ⟨rfl, rfl, fun w => ?_⟩
  unfold specCeilEstimate
  rcases Nat.even_or_odd w with ⟨k, hk⟩ | ⟨k, hk⟩ <;> subst hk <;> omega


theorem deepProgressResetOnFailure_counterexample :
    (deep_db_writes specDeepErrorTrace).map Prod.snd = [0, 5, 20, 0]
    ∧ ¬ List.Chain' (fun a b => a ≤ b)
        ((deep_db_writes specDeepErrorTrace).map Prod.snd) := by
  refine ⟨rfl, ?_⟩
  intro h
  rw [show (deep_db_writes specDeepErrorTrace).map Prod.snd = [0, 5, 20, 0]
    from rfl] at h
  simp only [List.chain'_cons, List.chain'_singleton] at h
  omega

/-- C3 (amended).  A deep-analysis run that succeeds persists a
non-decreasing `progress_percentage` sequence
(`0, 5, q, p, c, 100` for stage progresses `5 ≤ q ≤ p ≤ c ≤ 100`), but a
run that ends in failure persists a terminal `("failed", 0)` snapshot
whose `progress_percentage` 0 resets the sequence, so monotonicity holds
only for runs that do not fail. -/
theorem deepProgressMonotoneUnlessFailed (q p c : Nat)
    (h5 : 5 ≤ q) (hqp : q ≤ p) (hpc : p ≤ c) (hc : c ≤ 100) :
    List.Chain' (fun a b => a ≤ b)
      ((deep_db_writes (specDeepSuccessTrace q p c)).map Prod.snd)
    ∧ (deep_db_writes specDeepErrorTrace).getLast? = some ("failed", 0) := by
  constructor
  · rw [show (deep_db_writes (specDeepSuccessTrace q p c)).map Prod.snd
        = [0, 5, q, p, c, 100] from rfl]
    simp only [List.chain'_cons, List.chain'_singleton, and_true]
    refine ⟨by omega, by omega, by omega, by omega, by omega⟩
  · rfl

theorem deepProgressMonotoneUnlessFailed_witness :
    List.Chain' (fun a b => a ≤ b)
      ((deep_db_writes (specDeepSuccessTrace 20 40 95)).map Prod.snd)
    ∧ (deep_db_writes specDeepErrorTrace).getLast? = some ("failed", 0) :=
  deepProgressMonotoneUnlessFailed 20 40 95 (by omega) (by omega) (by omega)
    (by omega)

theorem deepFailedRowFields_counterexample :
    (update_report_in_db wReport "failed" 0 none none 120).status = "failed"
    ∧ (update_report_in_db wReport "failed" 0 none none 120).progress_percentage
        = 0
    ∧ (update_report_in_db wReport "failed" 0 none none 120).error_message
        = none
    ∧ (update_report_in_db wReport "failed" 0 none none 120).end_time = none
    ∧ (update_report_in_db wReport "failed" 0 none none 120).duration_seconds
        = none := by
  decide

/-- C4 (amended).  When a deep-analysis run ends with an uncaught error,
the persisted row is set to `status = "failed"` with
`progress_percentage = 0`, but `error_message`, `end_time` and
`duration_seconds` are left exactly as they were: only the terminal
`completed` write sets `end_time = now` and
`duration_seconds = now − start_time` (and the HTML report when the
content is non-empty); no write path of `update_report_in_db` touches
`error_message` at all. -/
theorem deepTerminalWrites (r : Report) (now : Nat) (html : String) :
    ((update_report_in_db r "failed" 0 none none now).status = "failed"
    ∧ (update_report_in_db r "failed" 0 none none now).progress_percentage = 0
    ∧ (update_report_in_db r "failed" 0 none none now).error_message
        = r.error_message
    ∧ (update_report_in_db r "failed" 0 none none now).end_time = r.end_time
    ∧ (update_report_in_db r "failed" 0 none none now).duration_seconds
        = r.duration_seconds)
    ∧ ((update_report_in_db r "completed" 100 (some "completed")
          (some (.text html)) now).end_time = some now
    ∧ (update_report_in_db r "completed" 100 (some "completed")
          (some (.text html)) now).duration_seconds
        = some (now - r.start_time)
    ∧ (update_report_in_db r "completed" 100 (some "completed")
          (some (.text html)) now).html_report
        = (if html = "" then r.html_report else some html)
    ∧ (update_report_in_db r "completed" 100 (some "completed")
          (some (.text html)) now).error_message = r.error_message) := by
  constructor
  · exact ⟨rfl, rfl, rfl, rfl, rfl⟩
  · by_cases hh : html = ""
    · subst hh
      refine ⟨rfl, rfl, ?_, ?_⟩ <;>
        simp [update_report_in_db, applyCompleted, applyStepContent,
          contentTruthy, contentText]
    · refine ⟨rfl, rfl, ?_, ?_⟩ <;>
        simp [update_report_in_db, applyCompleted, applyStepContent,
          contentTruthy, contentText, hh]

theorem mem_planner_enabled_entries (uid : Nat) (db : TemplateDb)
    (e : EnabledEntry) :
    e ∈ planner_enabled_entries uid db
      ↔ ∃ t ∈ db.templates, planner_active_variant t = true
          ∧ template_enabled_for_user uid db t = true
          ∧ mkEntry uid db t = e := by
  unfold planner_enabled_entries
  rw [List.mem_filterMap]
  constructor
  · rintro ⟨t, ht, hf⟩
    have htf := List.mem_filter.mp ht
    by_cases he : template_enabled_for_user uid db t = true
    · rw [if_pos he] at hf
      exact ⟨t, htf.1, htf.2, he, Option.some.inj hf⟩
    · rw [if_neg he] at hf
      cases hf
  · rintro ⟨t, ht, hv, he, hmk⟩
    exact ⟨t, List.mem_filter.mpr ⟨ht, hv⟩, by rw [if_pos he, hmk]⟩

/-- C5.  The planner-visible agent set for a user is exactly the active
templates with variant in `{planner, both}` that are enabled for that
user — preference record when present, core-planner default otherwise —
capped to at most 10, selected as the top 10 under the descending
`(usage_count, last_used_at)` ordering: every selected entry dominates (or
key-ties) every enabled entry left out, nothing is left out while 10 slots
remain, and an 11th enabled template is excluded. -/
theorem plannerTopTenSelection (uid : Nat) (db : TemplateDb) :
    (∀ e ∈ planner_visible_entries uid db, e ∈ planner_enabled_entries uid db)
    ∧ ((planner_enabled_entries uid db).length ≤ 10 →
        ∀ e ∈ planner_enabled_entries uid db,
          e ∈ planner_visible_entries uid db)
    ∧ (planner_visible_agents uid db).length
        = min (planner_enabled_entries uid db).length 10
    ∧ (∀ e1 ∈ planner_visible_entries uid db,
        ∀ e2 ∈ planner_enabled_entries uid db,
          e2 ∉ planner_visible_entries uid db →
            keyLe (keyOf e2) (keyOf e1) = true)
    ∧ (∀ e, e ∈ planner_enabled_entries uid db ↔
        ∃ t ∈ db.templates, planner_active_variant t = true
          ∧ template_enabled_for_user uid db t = true
          ∧ mkEntry uid db t = e) := by
  refine ⟨?_, ?_, ?_, ?_, fun e => mem_planner_enabled_entries uid db e⟩
  · intro e he
    exact (List.perm_insertionSort sortRel
      (planner_enabled_entries uid db)).mem_iff.mp (List.mem_of_mem_take he)
  · intro hle e he
    unfold planner_visible_entries
    rw [List.take_of_length_le (by rw [List.length_insertionSort]; exact hle)]
    exact (List.perm_insertionSort sortRel
      (planner_enabled_entries uid db)).mem_iff.mpr he
  · unfold planner_visible_agents planner_visible_entries
    rw [List.length_map, List.length_take, List.length_insertionSort]
    exact Nat.min_comm _ _
  · intro e1 h1 e2 h2 hn2
    have h2s : e2 ∈ List.insertionSort sortRel
        (planner_enabled_entries uid db) :=
      (List.perm_insertionSort sortRel
        (planner_enabled_entries uid db)).mem_iff.mpr h2
    have h2td : e2 ∈ List.take 10 (List.insertionSort sortRel
          (planner_enabled_entries uid db))
        ++ List.drop 10 (List.insertionSort sortRel
          (planner_enabled_entries uid db)) := by
      rw [List.take_append_drop]
      exact h2s
    have h2d : e2 ∈ List.drop 10 (List.insertionSort sortRel
        (planner_enabled_entries uid db)) := by
      rcases List.mem_append.mp h2td with h | h
      · exact absurd h hn2
      · exact h
    have hpw : List.Pairwise sortRel
        (List.take 10 (List.insertionSort sortRel
          (planner_enabled_entries uid db))
        ++ List.drop 10 (List.insertionSort sortRel
          (planner_enabled_entries uid db))) := by
      rw [List.take_append_drop]
      exact List.sorted_insertionSort sortRel (planner_enabled_entries uid db)
    exact (List.pairwise_append.mp hpw).2.2 e1 h1 e2 h2d

theorem plannerTopTenSelection_witness :
    (planner_visible_agents 1 wDb).length
        = min (planner_enabled_entries 1 wDb).length 10
    ∧ keyLe (keyOf (mkEntry 1 wDb ⟨11, "tpl11", "both", true⟩))
        (keyOf (mkEntry 1 wDb ⟨1, "tpl01", "planner", true⟩)) = true
    ∧ (planner_enabled_entries 1 wDb).length = 11
    ∧ planner_visible_agents 1 wDb
        = ["tpl01", "tpl02", "tpl03", "tpl04", "tpl05", "tpl06", "tpl07",
           "tpl08", "tpl09", "tpl10"]
    ∧ "tpl11" ∉ planner_visible_agents 1 wDb := by
  refine ⟨(plannerTopTenSelection 1 wDb).2.2.1, ?_, by decide, by decide,
    by decide⟩
  exact (plannerTopTenSelection 1 wDb).2.2.2.1
    (mkEntry 1 wDb ⟨1, "tpl01", "planner", true⟩) (by decide)
    (mkEntry 1 wDb ⟨11, "tpl11", "both", true⟩) (by decide) (by decide)

theorem loaderStoreErrorEmpty_counterexample :
    load_user_enabled_templates_from_db (some 7) (.error "store down")
        = ([], some .error)
    ∧ load_user_enabled_templates_for_planner_from_db (some 7)
        (.error "store down") = ([], some .error)
    ∧ "preprocessing_agent"
        ∉ (load_user_enabled_templates_from_db (some 7)
            (.error "store down")).1 := by
  exact ⟨rfl, rfl, by decide⟩

/-- C8 (amended).  On a template-store error the registry loader functions
return an empty mapping — not the four core agents — and log at ERROR
severity; the four-core-agent fallback lives one layer up, in
`auto_analyst_ind.__init__`, whose handler loads all four core agents and
also logs at ERROR (not WARNING) severity; the planner-side registry
(`auto_analyst.__init__`) deliberately does not fall back and is left with
only `basic_qa_agent`. -/
theorem registryStoreErrorBehaviour (u : Option Nat) (uid : Nat)
    (e : String) :
    load_user_enabled_templates_from_db u (.error e)
        = ([], if u.isSome then some .error else none)
    ∧ load_user_enabled_templates_for_planner_from_db u (.error e)
        = ([], if u.isSome then some .error else none)
    ∧ auto_analyst_ind_core_load (.error e)
        = (default_agent_names, some .error)
    ∧ auto_analyst_agent_names uid (.error e) = ["basic_qa_agent"] := by
  cases u <;> exact ⟨rfl, rfl, rfl, rfl⟩

theorem setPrefEnabled_twice (uid tid : Nat) (x y : Bool)
    (l : List UserTemplatePreference) :
    setPrefEnabled uid tid y (setPrefEnabled uid tid x l)
      = setPrefEnabled uid tid y l := by
  induction l with
  | nil => rfl
  | cons p ps ih =>
    by_cases h : prefFor uid tid p = true
    · have h2 : prefFor uid tid { p with is_enabled := x } = true := h
      simp only [setPrefEnabled, if_pos h, if_pos h2]
    · simp only [setPrefEnabled, if_neg h]
      rw [ih]

theorem findPref_setPrefEnabled {uid tid : Nat}
    {l : List UserTemplatePreference} {p : UserTemplatePreference}
    (h : findPref uid tid l = some p) (x : Bool) :
    findPref uid tid (setPrefEnabled uid tid x l)
      = some { p with is_enabled := x } := by
  induction l with
  | nil => cases h
  | cons q qs ih =>
    by_cases hq : prefFor uid tid q = true
    · have hqp : q = p := by
        unfold findPref at h
        rw [List.find?_cons_of_pos qs hq] at h
        exact Option.some.inj h
      subst hqp
      have h2 : prefFor uid tid { q with is_enabled := x } = true := hq
      unfold findPref
      simp only [setPrefEnabled, if_pos hq]
      rw [List.find?_cons_of_pos _ h2]
    · have h' : findPref uid tid qs = some p := by
        unfold findPref at h
        rwa [List.find?_cons_of_neg qs (by simp [hq])] at h
      unfold findPref
      simp only [setPrefEnabled, if_neg hq]
      rw [List.find?_cons_of_neg _ (by simp [hq])]
      exact ih h'

theorem findPref_append_new {uid tid : Nat} {l : List UserTemplatePreference}
    (h : findPref uid tid l = none) (x : Bool) :
    findPref uid tid (l ++ [⟨uid, tid, x, 0, none⟩])
      = some ⟨uid, tid, x, 0, none⟩ := by
  unfold findPref at h ⊢
  rw [List.find?_append, h]
  simp [prefFor]

theorem setPrefEnabled_append_new {uid tid : Nat}
    {l : List UserTemplatePreference}
    (h : findPref uid tid l = none) (x y : Bool) :
    setPrefEnabled uid tid y (l ++ [⟨uid, tid, x, 0, none⟩])
      = l ++ [⟨uid, tid, y, 0, none⟩] := by
  induction l with
  | nil => simp [setPrefEnabled, prefFor]
  | cons p ps ih =>
    have hp : prefFor uid tid p = false := by
      have := List.find?_eq_none.mp h p (List.mem_cons_self p ps)
      simpa using this
    have hrest : findPref uid tid ps = none := by
      unfold findPref at h
      rwa [List.find?_cons_of_neg ps (by simp [hp])] at h
    simp only [List.cons_append, setPrefEnabled, List.append_eq,
      if_neg (by simp [hp] : ¬ prefFor uid tid p = true)]
    rw [ih hrest]

theorem filter_setPrefEnabled {uid tid : Nat}
    {l : List UserTemplatePreference} {p : UserTemplatePreference}
    (h : findPref uid tid l = some p)
    (hcount : (l.filter (prefFor uid tid)).length ≤ 1) (y : Bool) :
    (setPrefEnabled uid tid y l).filter (prefFor uid tid)
      = [{ p with is_enabled := y }] := by
  induction l with
  | nil => cases h
  | cons q qs ih =>
    by_cases hq : prefFor uid tid q = true
    · have hqp : q = p := by
        unfold findPref at h
        rw [List.find?_cons_of_pos qs hq] at h
        exact Option.some.inj h
      subst hqp
      have hqs : qs.filter (prefFor uid tid) = [] := by
        rw [List.filter_cons_of_pos hq] at hcount
        simp only [List.length_cons] at hcount
        exact List.length_eq_zero.mp (by omega)
      have h2 : prefFor uid tid { q with is_enabled := y } = true := hq
      simp only [setPrefEnabled, if_pos hq]
      rw [List.filter_cons_of_pos h2, hqs]
    · have h' : findPref uid tid qs = some p := by
        unfold findPref at h
        rwa [List.find?_cons_of_neg qs (by simp [hq])] at h
      have hcount' : (qs.filter (prefFor uid tid)).length ≤ 1 := by
        rwa [List.filter_cons_of_neg (by simp [hq])] at hcount
      simp only [setPrefEnabled, if_neg hq]
      rw [List.filter_cons_of_neg (by simp [hq])]
      exact ih h' hcount'

theorem filter_none_of_findPref_none {uid tid : Nat}
    {l : List UserTemplatePreference} (h : findPref uid tid l = none) :
    l.filter (prefFor uid tid) = [] := by
  rw [List.filter_eq_nil_iff]
  intro a ha
  exact List.find?_eq_none.mp h a ha

/-- C9.  For every store, user, template and flags `x`, `y`, toggling to
`x` and then to `y` (both commits succeeding) leaves the store in exactly
the state of toggling to `y` alone; and whenever the template exists and
is active and the store satisfies the `(user, template)` uniqueness
constraint, the toggled store holds exactly one preference record for the
pair, carrying `is_enabled = y` — last write wins. -/
theorem togglePreferenceLastWriteWins (db : TemplateDb) (uid tid : Nat)
    (x y : Bool) :
    (toggle_user_template_preference uid tid y none
        (toggle_user_template_preference uid tid x none db).2).2
      = (toggle_user_template_preference uid tid y none db).2
    ∧ ((db.templates.find? fun t => t.template_id == tid && t.is_active).isSome
        → (db.prefs.filter (prefFor uid tid)).length ≤ 1 →
        (((toggle_user_template_preference uid tid y none db).2.prefs.filter
            (prefFor uid tid)).map (·.is_enabled)) = [y]) := by
  constructor
  · cases hfind : db.templates.find? fun t => t.template_id == tid && t.is_active with
    | none => simp [toggle_user_template_preference, hfind]
    | some t =>
      cases hpref : findPref uid tid db.prefs with
      | some p =>
        simp only [toggle_user_template_preference, hfind, hpref,
          findPref_setPrefEnabled hpref x, setPrefEnabled_twice]
      | none =>
        simp only [toggle_user_template_preference, hfind, hpref,
          findPref_append_new hpref x, setPrefEnabled_append_new hpref x y]
  · intro hsome hcount
    cases hfind : db.templates.find? fun t => t.template_id == tid && t.is_active with
    | none => rw [hfind] at hsome; cases hsome
    | some t =>
      cases hpref : findPref uid tid db.prefs with
      | some p =>
        simp only [toggle_user_template_preference, hfind, hpref]
        rw [filter_setPrefEnabled hpref hcount y]
        rfl
      | none =>
        simp only [toggle_user_template_preference, hfind, hpref]
        rw [List.filter_append, filter_none_of_findPref_none hpref]
        simp [prefFor]

theorem togglePreferenceLastWriteWins_witness :
    ((toggle_user_template_preference 7 1 true none
        (toggle_user_template_preference 7 1 false none wDb2).2).2
      = (toggle_user_template_preference 7 1 true none wDb2).2)
    ∧ (((toggle_user_template_preference 7 1 true none wDb2).2.prefs.filter
        (prefFor 7 1)).map (·.is_enabled) = [true]) := by
  have h := togglePreferenceLastWriteWins wDb2 7 1 false true
  exact ⟨h.1, h.2 (by decide) (by decide)⟩

theorem filter_setPrefEnabled_other {uid tid u2 t2 : Nat}
    (hne : ¬ (u2 = uid ∧ t2 = tid)) (y : Bool) :
    ∀ l : List UserTemplatePreference,
      (setPrefEnabled uid tid y l).filter (prefFor u2 t2)
        = l.filter (prefFor u2 t2) := by
  intro l
  induction l with
  | nil => rfl
  | cons p ps ih =>
    by_cases hp : prefFor uid tid p = true
    · have hother : prefFor u2 t2 p = false := by
        by_contra hcon
        have h2 : prefFor u2 t2 p = true := by
          cases h3 : prefFor u2 t2 p
          · exact absurd h3 hcon
          · rfl
        have e1 := Bool.and_eq_true_iff.mp hp
        have e2 := Bool.and_eq_true_iff.mp h2
        exact hne ⟨by
          have := beq_iff_eq.mp e2.1
          have := beq_iff_eq.mp e1.1
          omega, by
          have := beq_iff_eq.mp e2.2
          have := beq_iff_eq.mp e1.2
          omega⟩
      have hother2 : prefFor u2 t2 { p with is_enabled := y } = false := hother
      simp only [setPrefEnabled, if_pos hp]
      rw [List.filter_cons_of_neg (by simp [hother2]),
        List.filter_cons_of_neg (by simp [hother])]
    · simp only [setPrefEnabled, if_neg hp]
      by_cases h2 : prefFor u2 t2 p = true
      · rw [List.filter_cons_of_pos h2, List.filter_cons_of_pos h2, ih]
      · rw [List.filter_cons_of_neg (by simp [h2]),
          List.filter_cons_of_neg (by simp [h2]), ih]

/-- C10.  `toggle_user_template_preference` is atomic: if the template is
missing or inactive it reports failure and the store is unchanged; if the
commit raises, the rollback leaves the store unchanged and failure plus an
error message is returned; otherwise it returns success and commits
exactly the requested change — the pair holds one record with the
requested flag (under the uniqueness constraint) and every other
`(user, template)` pair's records are untouched. -/
theorem toggleAtomicity (db : TemplateDb) (uid tid : Nat) (e : Bool)
    (commitErr : Option String) :
    ((db.templates.find? fun t => t.template_id == tid && t.is_active) = none
      → toggle_user_template_preference uid tid e commitErr db
          = ((false, "Template not found or inactive"), db))
    ∧ (∀ t, (db.templates.find? fun t => t.template_id == tid && t.is_active)
          = some t → ∀ msg, commitErr = some msg →
        toggle_user_template_preference uid tid e commitErr db
          = ((false, "Error updating template preference: " ++ msg), db))
    ∧ (∀ t, (db.templates.find? fun t => t.template_id == tid && t.is_active)
          = some t → commitErr = none →
        (toggle_user_template_preference uid tid e none db).1.1 = true
        ∧ (toggle_user_template_preference uid tid e none db).2.templates
            = db.templates
        ∧ ((db.prefs.filter (prefFor uid tid)).length ≤ 1 →
            (((toggle_user_template_preference uid tid e none db).2.prefs.filter
                (prefFor uid tid)).map (·.is_enabled)) = [e])
        ∧ (∀ u2 t2 : Nat, ¬ (u2 = uid ∧ t2 = tid) →
            (toggle_user_template_preference uid tid e none db).2.prefs.filter
                (prefFor u2 t2)
              = db.prefs.filter (prefFor u2 t2))) := by
  refine ⟨?_, ?_, ?_⟩
  · intro hfind
    simp [toggle_user_template_preference, hfind]
  · intro t hfind msg hc
    subst hc
    simp [toggle_user_template_preference, hfind]
  · intro t hfind _
    refine ⟨?_, ?_, ?_, ?_⟩
    · simp [toggle_user_template_preference, hfind]
    · simp only [toggle_user_template_preference, hfind]
    · intro hcount
      cases hpref : findPref uid tid db.prefs with
      | some p =>
        simp only [toggle_user_template_preference, hfind, hpref]
        rw [filter_setPrefEnabled hpref hcount e]
        rfl
      | none =>
        simp only [toggle_user_template_preference, hfind, hpref]
        rw [List.filter_append, filter_none_of_findPref_none hpref]
        simp [prefFor]
    · intro u2 t2 hne
      cases hpref : findPref uid tid db.prefs with
      | some p =>
        simp only [toggle_user_template_preference, hfind, hpref]
        exact filter_setPrefEnabled_other hne e db.prefs
      | none =>
        simp only [toggle_user_template_preference, hfind, hpref]
        rw [List.filter_append]
        have hnew : prefFor u2 t2 (⟨uid, tid, e, 0, none⟩ :
            UserTemplatePreference) = false := by
          by_contra hcon
          have h2 : prefFor u2 t2 (⟨uid, tid, e, 0, none⟩ :
              UserTemplatePreference) = true := by
            cases h3 : prefFor u2 t2 (⟨uid, tid, e, 0, none⟩ :
                UserTemplatePreference)
            · exact absurd h3 hcon
            · rfl
          have e2 := Bool.and_eq_true_iff.mp h2
          exact hne ⟨(beq_iff_eq.mp e2.1).symm ▸ rfl,
            (beq_iff_eq.mp e2.2).symm ▸ rfl⟩
        rw [show ([⟨uid, tid, e, 0, none⟩] :
            List UserTemplatePreference).filter (prefFor u2 t2) = []
          from by simp [hnew]]
        simp

theorem toggleAtomicity_witness :
    ((toggle_user_template_preference 7 1 true (some "disk full") wDb2)
        = ((false, "Error updating template preference: disk full"), wDb2))
    ∧ ((toggle_user_template_preference 7 2 true none wDb2)
        = ((false, "Template not found or inactive"), wDb2))
    ∧ (((toggle_user_template_preference 7 1 true none wDb2).2.prefs.filter
        (prefFor 7 1)).map (·.is_enabled) = [true])
    ∧ ((toggle_user_template_preference 7 1 true none wDb2).2.prefs.filter
        (prefFor 8 1) = wDb2.prefs.filter (prefFor 8 1)) := by
  have h := toggleAtomicity wDb2 7 1 true (some "disk full")
  have h2 := toggleAtomicity wDb2 7 2 true none
  have h3 := toggleAtomicity wDb2 7 1 true none
  refine ⟨?_, ?_, ?_, ?_⟩
  · exact h.2.1 ⟨1, "custom_agent", "both", true⟩ (by decide) "disk full" rfl
  · exact h2.1 (by decide)
  · exact (h3.2.2 ⟨1, "custom_agent", "both", true⟩ (by decide) rfl).2.2.1
      (by decide)
  · exact (h3.2.2 ⟨1, "custom_agent", "both", true⟩ (by decide) rfl).2.2.2
      8 1 (by omega)

end AutoAnalyst
